import Mathlib

/-!
Shallow embedding of the sg-jb travel-time prediction pipeline
(backend/app: routes.py, model.py, utils.py, traffic_apis.py).

Python floats are idealized as exact rationals (ℚ); Python's
`round(x, 1)` is modelled as round-half-to-even at one decimal place.
The ensemble uncertainty computation of `TravelTimeModel.predict`
(which takes a square root) is modelled over ℝ.

External collaborators (the `holidays` library, the weather API, the
Google Maps live-traffic API, today's date) are passed in explicitly as
an `Externals` record: the pipeline consumes their responses, it does
not compute them.
-/

namespace SgJb

/-- Calendar date, as Python's `datetime.date` (proleptic Gregorian). -/
structure CalDate where
  year : Nat
  month : Nat
  day : Nat
deriving DecidableEq, Repr

/-- Gregorian leap-year test, as Python's calendar. -/
def isLeapYear (y : Nat) : Bool :=
  (y % 4 == 0 && y % 100 != 0) || (y % 400 == 0)

/-- Days in the months strictly before month `m` (1-based). -/
def daysBeforeMonth (m : Nat) (leap : Bool) : Nat :=
  let feb := if leap then 29 else 28
  match m with
  | 1 => 0
  | 2 => 31
  | 3 => 31 + feb
  | 4 => 62 + feb
  | 5 => 92 + feb
  | 6 => 123 + feb
  | 7 => 153 + feb
  | 8 => 184 + feb
  | 9 => 215 + feb
  | 10 => 245 + feb
  | 11 => 276 + feb
  | _ => 306 + feb

/-- Python's `date.toordinal`: day number with 0001-01-01 ↦ 1. -/
def rataDie (d : CalDate) : Nat :=
  365 * (d.year - 1) + (d.year - 1) / 4 + (d.year - 1) / 400
    + daysBeforeMonth d.month (isLeapYear d.year) + d.day
    - (d.year - 1) / 100

/-- Python's `date.weekday()`: 0 = Monday, …, 6 = Sunday. -/
def pyWeekday (d : CalDate) : Nat :=
  (rataDie d + 6) % 7

/-- `HolidayChecker.is_school_holiday_sg` (utils.py): approximate
Singapore school-holiday windows keyed on month/day. -/
def is_school_holiday_sg (d : CalDate) : Bool :=
  let month := d.month
  let day := d.day
  if month == 3 && 8 ≤ day && day ≤ 16 then true
  else if (month == 5 && day ≥ 27) || (month == 6 && day ≤ 25) then true
  else if month == 9 && 2 ≤ day && day ≤ 10 then true
  else if (month == 11 && day ≥ 18) || (month == 12 && day ≤ 31) then true
  else false

/-- `HolidayChecker.is_school_holiday_my` (utils.py): approximate
Malaysia school-holiday windows keyed on month/day. -/
def is_school_holiday_my (d : CalDate) : Bool :=
  let month := d.month
  let day := d.day
  if month == 3 && 20 ≤ day && day ≤ 30 then true
  else if (month == 5 && day ≥ 27) || (month == 6 && day ≤ 11) then true
  else if (month == 11 && day ≥ 20) || (month == 12 && day ≤ 31) then true
  else false

/-- `TrafficAPI.get_historical_avg_travel_time` (utils.py): closed-form
historical average travel time from hour and day of week. -/
def get_historical_avg_travel_time (hour : Nat) (day_of_week : Nat) : ℚ :=
  let base_time : ℚ := 30
  let peak_multiplier : ℚ :=
    if hour = 7 ∨ hour = 8 ∨ hour = 9 ∨ hour = 17 ∨ hour = 18 ∨ hour = 19 then 2.5
    else if hour = 6 ∨ hour = 10 ∨ hour = 16 ∨ hour = 20 then 1.8
    else 1
  let peak_multiplier :=
    if day_of_week = 5 ∨ day_of_week = 6 then peak_multiplier * 0.7
    else peak_multiplier
  base_time * peak_multiplier

/-- Congestion tiers (utils.py returns the four strings
"low" / "moderate" / "high" / "severe"). -/
inductive CongestionLevel where
  | low
  | moderate
  | high
  | severe
deriving DecidableEq, Repr

/-- Rank of a congestion tier in the order low < moderate < high < severe. -/
def levelRank : CongestionLevel → Nat
  | .low => 0
  | .moderate => 1
  | .high => 2
  | .severe => 3

/-- `calculate_congestion_level` (utils.py): tier from the ratio
predicted / base, default base 30.0. -/
def calculate_congestion_level (predicted_time : ℚ) (base_time : ℚ := 30) :
    CongestionLevel :=
  let ratio := predicted_time / base_time
  if ratio < 1.2 then .low
  else if ratio < 1.5 then .moderate
  else if ratio < 2.0 then .high
  else .severe

/-- Round a rational to the nearest integer, ties to even
(Python's `round` on floats, idealized to exact arithmetic). -/
def roundHalfEven (x : ℚ) : ℤ :=
  if x - ⌊x⌋ = 1/2 then (if ⌊x⌋ % 2 = 0 then ⌊x⌋ else ⌊x⌋ + 1)
  else round x

/-- Python's `round(x, 1)`: one decimal place, ties to even. -/
def round1 (x : ℚ) : ℚ :=
  (roundHalfEven (10 * x) : ℚ) / 10

/-- One hour-keyed row of `CheckpointWaitTimeEstimator.WAIT_TIME_PATTERNS`
(traffic_apis.py): base wait minutes by hour, default 10 on a missing
key (`.get(hour, 10)`). One definition per (checkpoint, day type,
direction) combination present in the table. -/
def woodlandsWeekdayToJb (hour : ℤ) : ℚ :=
  match hour with
  | 6 => 15 | 7 => 25 | 8 => 35 | 9 => 20 | 10 => 10 | 11 => 8 | 12 => 10
  | 13 => 8 | 14 => 8 | 15 => 10 | 16 => 15 | 17 => 30 | 18 => 40 | 19 => 35
  | 20 => 25 | 21 => 15 | 22 => 10 | 23 => 8 | 0 => 5 | 1 => 5 | 2 => 5
  | 3 => 5 | 4 => 5 | 5 => 8
  | _ => 10

/-- See `woodlandsWeekdayToJb`. -/
def woodlandsWeekdayToSg (hour : ℤ) : ℚ :=
  match hour with
  | 6 => 20 | 7 => 40 | 8 => 50 | 9 => 30 | 10 => 15 | 11 => 10 | 12 => 12
  | 13 => 10 | 14 => 10 | 15 => 12 | 16 => 20 | 17 => 35 | 18 => 45 | 19 => 40
  | 20 => 30 | 21 => 20 | 22 => 12 | 23 => 10 | 0 => 8 | 1 => 5 | 2 => 5
  | 3 => 5 | 4 => 5 | 5 => 10
  | _ => 10

/-- See `woodlandsWeekdayToJb`. -/
def woodlandsWeekendToJb (hour : ℤ) : ℚ :=
  match hour with
  | 6 => 10 | 7 => 15 | 8 => 25 | 9 => 30 | 10 => 20 | 11 => 15 | 12 => 12
  | 13 => 10 | 14 => 12 | 15 => 15 | 16 => 20 | 17 => 25 | 18 => 30 | 19 => 25
  | 20 => 20 | 21 => 15 | 22 => 12 | 23 => 10 | 0 => 8 | 1 => 5 | 2 => 5
  | 3 => 5 | 4 => 5 | 5 => 8
  | _ => 10

/-- See `woodlandsWeekdayToJb`. -/
def woodlandsWeekendToSg (hour : ℤ) : ℚ :=
  match hour with
  | 6 => 15 | 7 => 25 | 8 => 35 | 9 => 40 | 10 => 30 | 11 => 20 | 12 => 18
  | 13 => 15 | 14 => 18 | 15 => 25 | 16 => 35 | 17 => 45 | 18 => 50 | 19 => 45
  | 20 => 35 | 21 => 25 | 22 => 18 | 23 => 15 | 0 => 10 | 1 => 8 | 2 => 5
  | 3 => 5 | 4 => 5 | 5 => 10
  | _ => 10

/-- See `woodlandsWeekdayToJb`. -/
def tuasWeekdayToJb (hour : ℤ) : ℚ :=
  match hour with
  | 6 => 8 | 7 => 12 | 8 => 15 | 9 => 10 | 10 => 5 | 11 => 5 | 12 => 5
  | 13 => 5 | 14 => 5 | 15 => 8 | 16 => 10 | 17 => 15 | 18 => 20 | 19 => 18
  | 20 => 12 | 21 => 8 | 22 => 5 | 23 => 5 | 0 => 3 | 1 => 3 | 2 => 3
  | 3 => 3 | 4 => 3 | 5 => 5
  | _ => 10

/-- See `woodlandsWeekdayToJb`. -/
def tuasWeekdayToSg (hour : ℤ) : ℚ :=
  match hour with
  | 6 => 10 | 7 => 18 | 8 => 25 | 9 => 15 | 10 => 8 | 11 => 5 | 12 => 8
  | 13 => 5 | 14 => 5 | 15 => 10 | 16 => 15 | 17 => 20 | 18 => 25 | 19 => 22
  | 20 => 15 | 21 => 10 | 22 => 8 | 23 => 5 | 0 => 5 | 1 => 3 | 2 => 3
  | 3 => 3 | 4 => 3 | 5 => 5
  | _ => 10

/-- See `woodlandsWeekdayToJb`. -/
def tuasWeekendToJb (hour : ℤ) : ℚ :=
  match hour with
  | 6 => 5 | 7 => 8 | 8 => 12 | 9 => 15 | 10 => 10 | 11 => 8 | 12 => 8
  | 13 => 5 | 14 => 8 | 15 => 10 | 16 => 12 | 17 => 15 | 18 => 18 | 19 => 15
  | 20 => 10 | 21 => 8 | 22 => 5 | 23 => 5 | 0 => 3 | 1 => 3 | 2 => 3
  | 3 => 3 | 4 => 3 | 5 => 5
  | _ => 10

/-- See `woodlandsWeekdayToJb`. -/
def tuasWeekendToSg (hour : ℤ) : ℚ :=
  match hour with
  | 6 => 8 | 7 => 12 | 8 => 18 | 9 => 20 | 10 => 15 | 11 => 10 | 12 => 12
  | 13 => 8 | 14 => 12 | 15 => 18 | 16 => 25 | 17 => 30 | 18 => 35 | 19 => 30
  | 20 => 20 | 21 => 15 | 22 => 10 | 23 => 8 | 0 => 5 | 1 => 3 | 2 => 3
  | 3 => 3 | 4 => 3 | 5 => 5
  | _ => 10

/-- `CheckpointWaitTimeEstimator.WAIT_TIME_PATTERNS` as the chain of
`.get` lookups of `estimate_wait_time`: any checkpoint, day-type,
direction or hour key absent from the table yields the default 10. -/
def waitTimePattern (checkpoint : String) (day_type : String)
    (direction : String) (hour : ℤ) : ℚ :=
  match checkpoint, day_type, direction with
  | "woodlands", "weekday", "singapore_to_jb" => woodlandsWeekdayToJb hour
  | "woodlands", "weekday", "jb_to_singapore" => woodlandsWeekdayToSg hour
  | "woodlands", "weekend", "singapore_to_jb" => woodlandsWeekendToJb hour
  | "woodlands", "weekend", "jb_to_singapore" => woodlandsWeekendToSg hour
  | "tuas", "weekday", "singapore_to_jb" => tuasWeekdayToJb hour
  | "tuas", "weekday", "jb_to_singapore" => tuasWeekdayToSg hour
  | "tuas", "weekend", "singapore_to_jb" => tuasWeekendToJb hour
  | "tuas", "weekend", "jb_to_singapore" => tuasWeekendToSg hour
  | _, _, _ => 10

/-- The result record of `estimate_wait_time`. -/
structure WaitTimeEstimate where
  estimated_wait_minutes : ℚ
  min_wait_minutes : ℚ
  max_wait_minutes : ℚ
  confidence : String
deriving DecidableEq, Repr

/-- `CheckpointWaitTimeEstimator.estimate_wait_time` (traffic_apis.py). -/
def estimate_wait_time (checkpoint : String) (direction : String)
    (hour : ℤ) (is_weekend : Bool) (is_holiday : Bool) : WaitTimeEstimate :=
  let day_type := if is_weekend then "weekend" else "weekday"
  let base_wait := waitTimePattern checkpoint day_type direction hour
  let base_wait := if is_holiday then base_wait * 1.5 else base_wait
  let min_wait := max 2 (base_wait * 0.7)
  let max_wait := base_wait * 1.3
  { estimated_wait_minutes := round1 base_wait
    min_wait_minutes := round1 min_wait
    max_wait_minutes := round1 max_wait
    confidence := "medium" }

/-- Responses of the external collaborators for one pipeline run:
today's date, the `holidays`-library answers for the travel date, the
weather API response (`none` when no API key is configured; fetch
failure already yields the defaults inside `get_current_weather`), and
the Google Maps live traffic multiplier (`none` when the fetch failed
or no key is configured). -/
structure Externals where
  today : CalDate
  sg_public_holiday : Bool
  my_public_holiday : Bool
  weather : Option (ℚ × ℚ)
  traffic_multiplier : Option ℚ
deriving DecidableEq, Repr

/-- A validated `/predict` request (routes.py `PredictRequest`): the
pydantic validators have lower-cased the strings and parsed the
`HH:MM` travel time into hour and minute. -/
structure PredictRequest where
  origin : String
  destination : String
  travel_date : CalDate
  hour : Nat
  minute : Nat
  mode : String
  checkpoint : String
deriving DecidableEq, Repr

/-- What the routes.py validators accept. -/
def ValidRequest (r : PredictRequest) : Prop :=
  (r.origin = "singapore" ∨ r.origin = "jb" ∨ r.origin = "johor bahru")
    ∧ (r.destination = "singapore" ∨ r.destination = "jb"
        ∨ r.destination = "johor bahru")
    ∧ r.hour < 24 ∧ r.minute < 60
    ∧ (r.mode = "car" ∨ r.mode = "taxi" ∨ r.mode = "bus")
    ∧ (r.checkpoint = "woodlands" ∨ r.checkpoint = "tuas")

instance (r : PredictRequest) : Decidable (ValidRequest r) := by
  unfold ValidRequest; infer_instance

/-- The feature dictionary of `engineer_features` (utils.py), as a
record with one field per key. -/
structure Features where
  hour_of_day : Nat
  minute_of_hour : Nat
  day_of_week : Nat
  day_of_month : Nat
  month : Nat
  is_weekend : Nat
  is_sg_holiday : Nat
  is_my_holiday : Nat
  is_sg_school_holiday : Nat
  is_my_school_holiday : Nat
  is_any_holiday : Nat
  direction_sg_to_jb : Nat
  mode_car : Nat
  mode_taxi : Nat
  mode_bus : Nat
  rain_mm : ℚ
  temp_c : ℚ
  historical_avg_time : ℚ
  is_morning_peak : Nat
  is_evening_peak : Nat
  is_peak_hour : Nat
deriving DecidableEq, Repr

/-- `engineer_features` (utils.py), with the public-holiday answers of
the external `holidays` library and the weather response passed in. -/
def engineer_features (e : Externals) (travel_date : CalDate)
    (hour minute : Nat) (origin : String) (mode : String) : Features :=
  let day_of_week := pyWeekday travel_date
  let is_sg_holiday := if e.sg_public_holiday then 1 else 0
  let is_my_holiday := if e.my_public_holiday then 1 else 0
  let is_sg_school_holiday := if is_school_holiday_sg travel_date then 1 else 0
  let is_my_school_holiday := if is_school_holiday_my travel_date then 1 else 0
  let is_morning_peak := if 7 ≤ hour ∧ hour ≤ 9 then 1 else 0
  let is_evening_peak := if 17 ≤ hour ∧ hour ≤ 19 then 1 else 0
  { hour_of_day := hour
    minute_of_hour := minute
    day_of_week := day_of_week
    day_of_month := travel_date.day
    month := travel_date.month
    is_weekend := if day_of_week ≥ 5 then 1 else 0
    is_sg_holiday := is_sg_holiday
    is_my_holiday := is_my_holiday
    is_sg_school_holiday := is_sg_school_holiday
    is_my_school_holiday := is_my_school_holiday
    is_any_holiday :=
      max (max is_sg_holiday is_my_holiday)
        (max is_sg_school_holiday is_my_school_holiday)
    direction_sg_to_jb := if origin = "singapore" then 1 else 0
    mode_car := if mode = "car" then 1 else 0
    mode_taxi := if mode = "taxi" then 1 else 0
    mode_bus := if mode = "bus" then 1 else 0
    rain_mm := (e.weather.getD (0, 30)).1
    temp_c := (e.weather.getD (0, 30)).2
    historical_avg_time := get_historical_avg_travel_time hour day_of_week
    is_morning_peak := is_morning_peak
    is_evening_peak := is_evening_peak
    is_peak_hour := max is_morning_peak is_evening_peak }

/-- The running (point, lower, upper) triple of `predict_travel_time`. -/
structure Estimate where
  point : ℚ
  lower : ℚ
  upper : ℚ
deriving DecidableEq, Repr

/-- Bounds invariant claimed for every pipeline stage. -/
def EstimateInv (t : Estimate) : Prop :=
  t.lower ≤ t.point ∧ t.point ≤ t.upper ∧ 0 ≤ t.lower

instance (t : Estimate) : Decidable (EstimateInv t) := by
  unfold EstimateInv; infer_instance

/-- Stage 1 of `predict_travel_time` with no model loaded (routes.py
lines 144-150): historical baseline with a ±15% band. -/
def fallbackStage (f : Features) : Estimate :=
  let base_time := f.historical_avg_time
  { point := base_time, lower := base_time * 0.85, upper := base_time * 1.15 }

/-- Stage 2 of `predict_travel_time` (routes.py lines 152-173): blend
the point estimate with the live traffic multiplier when requested,
travelling today, and the fetch succeeded; the bounds are untouched. -/
def trafficStage (use_realtime : Bool) (e : Externals) (r : PredictRequest)
    (t : Estimate) : Estimate :=
  if use_realtime ∧ r.travel_date = e.today then
    match e.traffic_multiplier with
    | some m => { t with point := t.point * (0.7 + 0.3 * m) }
    | none => t
  else t

/-- The wait-time estimate a request receives (routes.py lines 176-191). -/
def requestWait (r : PredictRequest) (f : Features) : WaitTimeEstimate :=
  estimate_wait_time r.checkpoint
    (if r.origin = "singapore" then "singapore_to_jb" else "jb_to_singapore")
    (r.hour : ℤ) (pyWeekday r.travel_date ≥ 5) (f.is_any_holiday = 1)

/-- Stage 3 of `predict_travel_time` (routes.py lines 193-196): add the
estimated wait to the point and the min/max wait to the bounds. -/
def waitStage (r : PredictRequest) (f : Features) (t : Estimate) : Estimate :=
  let w := requestWait r f
  { point := t.point + w.estimated_wait_minutes
    lower := t.lower + w.min_wait_minutes
    upper := t.upper + w.max_wait_minutes }

/-- Alert composition (routes.py lines 207-218). -/
def composeAlert (level : CongestionLevel) (f : Features) : Option String :=
  let alert : Option String :=
    if level = .severe then
      some "Severe congestion expected. Consider alternative timing."
    else if level = .high ∧ f.is_peak_hour = 1 then
      some "Heavy traffic during peak hours. Plan extra time."
    else none
  if f.is_any_holiday = 1 then
    let holiday_alert := "Holiday period - expect increased traffic at borders."
    match alert with
    | some a => some (a ++ " " ++ holiday_alert)
    | none => some holiday_alert
  else alert

/-- The `/predict` response (routes.py `PredictResponse`), with the two
feature keys the pipeline adds along the way kept separately. -/
structure PredictionResult where
  predicted_time_minutes : ℚ
  lower_bound_minutes : ℚ
  upper_bound_minutes : ℚ
  congestion_level : CongestionLevel
  features_used : Features
  realtime_traffic_multiplier : Option ℚ
  estimated_wait_time : Option ℚ
  alert : Option String
deriving DecidableEq, Repr

/-- `predict_travel_time` (routes.py) on the model-absent path: feature
engineering, fallback baseline estimate, optional real-time traffic
blend, wait-time addition, congestion classification, alerts. -/
def predictNoModel (use_realtime : Bool) (e : Externals)
    (r : PredictRequest) : PredictionResult :=
  let f := engineer_features e r.travel_date r.hour r.minute r.origin r.mode
  let t1 := fallbackStage f
  let t2 := trafficStage use_realtime e r t1
  let t3 := waitStage r f t2
  let level := calculate_congestion_level t3.point
  { predicted_time_minutes := t3.point
    lower_bound_minutes := t3.lower
    upper_bound_minutes := t3.upper
    congestion_level := level
    features_used := f
    realtime_traffic_multiplier :=
      if use_realtime ∧ r.travel_date = e.today then e.traffic_multiplier
      else none
    estimated_wait_time := some (requestWait r f).estimated_wait_minutes
    alert := composeAlert level f }

/-- Mean of a list of member predictions (`np.mean`). -/
def listMean (xs : List ℚ) : ℚ := xs.sum / xs.length

/-- `np.std` with its default `ddof = 0`: the population variance,
mean of squared deviations from the mean. -/
def popVariance (xs : List ℚ) : ℚ :=
  (xs.map (fun x => (x - listMean xs) ^ 2)).sum / xs.length

/-- `np.std(tree_predictions)`: square root of the population variance. -/
noncomputable def npStd (xs : List ℚ) : ℝ :=
  Real.sqrt ((popVariance xs : ℚ) : ℝ)

/-- The usable member predictions (model.py lines 106-110): the first
50 entries of `estimators_`, keeping those that have a `predict`
attribute (`none` models a member without one), each evaluated on the
same feature array. -/
def treePredictions (estimators : List (Option ℚ)) : List ℚ :=
  (estimators.take 50).filterMap id

/-- The confidence-interval part of `TravelTimeModel.predict`
(model.py lines 99-125): `prediction` is the loaded model's scalar
output on the prepared feature array, `estimators` is `some` the list
of ensemble member predictions when the model has an `estimators_`
attribute and `none` otherwise. Returns (predicted, lower, upper). -/
noncomputable def modelPredict (prediction : ℚ)
    (estimators : Option (List (Option ℚ))) : ℝ × ℝ × ℝ :=
  match estimators with
  | some ests =>
    let tree_predictions := treePredictions ests
    if tree_predictions = [] then
      ((prediction : ℝ), (prediction : ℝ) * 0.85, (prediction : ℝ) * 1.15)
    else
      ((prediction : ℝ),
        max 0 ((prediction : ℝ) - 1.96 * npStd tree_predictions),
        (prediction : ℝ) + 1.96 * npStd tree_predictions)
  | none =>
    ((prediction : ℝ), (prediction : ℝ) * 0.85, (prediction : ℝ) * 1.15)

/-! ### Helper lemmas -/

lemma roundHalfEven_bounds (x : ℚ) :
    x - 1/2 ≤ (roundHalfEven x : ℚ) ∧ (roundHalfEven x : ℚ) ≤ x + 1/2 := by
  unfold roundHalfEven
  split_ifs with h1 h2
  · constructor <;> linarith
  · have hfl := Int.floor_le x
    push_cast
    constructor <;> linarith
  · have := abs_sub_round x
    rw [abs_le] at this
    constructor <;> linarith

lemma round1_bounds (x : ℚ) : x - 1/20 ≤ round1 x ∧ round1 x ≤ x + 1/20 := by
  obtain ⟨h1, h2⟩ := roundHalfEven_bounds (10 * x)
  unfold round1
  constructor <;> [linarith; linarith]

lemma round1_intCast_div_ten (n : ℤ) : round1 ((n : ℚ) / 10) = (n : ℚ) / 10 := by
  have hx : 10 * ((n : ℚ) / 10) = (n : ℚ) := by ring
  unfold round1 roundHalfEven
  rw [hx, Int.floor_intCast, round_intCast]
  have : (n : ℚ) - (n : ℚ) = 0 := by ring
  simp [this]

lemma woodlandsWeekdayToJb_ge (h : ℤ) : 3 ≤ woodlandsWeekdayToJb h := by
  unfold woodlandsWeekdayToJb; split <;> norm_num

lemma woodlandsWeekdayToSg_ge (h : ℤ) : 3 ≤ woodlandsWeekdayToSg h := by
  unfold woodlandsWeekdayToSg; split <;> norm_num

lemma woodlandsWeekendToJb_ge (h : ℤ) : 3 ≤ woodlandsWeekendToJb h := by
  unfold woodlandsWeekendToJb; split <;> norm_num

lemma woodlandsWeekendToSg_ge (h : ℤ) : 3 ≤ woodlandsWeekendToSg h := by
  unfold woodlandsWeekendToSg; split <;> norm_num

lemma tuasWeekdayToJb_ge (h : ℤ) : 3 ≤ tuasWeekdayToJb h := by
  unfold tuasWeekdayToJb; split <;> norm_num

lemma tuasWeekdayToSg_ge (h : ℤ) : 3 ≤ tuasWeekdayToSg h := by
  unfold tuasWeekdayToSg; split <;> norm_num

lemma tuasWeekendToJb_ge (h : ℤ) : 3 ≤ tuasWeekendToJb h := by
  unfold tuasWeekendToJb; split <;> norm_num

lemma tuasWeekendToSg_ge (h : ℤ) : 3 ≤ tuasWeekendToSg h := by
  unfold tuasWeekendToSg; split <;> norm_num

lemma waitTimePattern_ge_three (cp dt dir : String) (h : ℤ) :
    3 ≤ waitTimePattern cp dt dir h := by
  unfold waitTimePattern
  split
  · exact woodlandsWeekdayToJb_ge h
  · exact woodlandsWeekdayToSg_ge h
  · exact woodlandsWeekendToJb_ge h
  · exact woodlandsWeekendToSg_ge h
  · exact tuasWeekdayToJb_ge h
  · exact tuasWeekdayToSg_ge h
  · exact tuasWeekendToJb_ge h
  · exact tuasWeekendToSg_ge h
  · norm_num

lemma estimate_wait_time_base (cp dir : String) (h : ℤ) (wk hol : Bool) :
    ∃ b : ℚ, 3 ≤ b
      ∧ (estimate_wait_time cp dir h wk hol).estimated_wait_minutes = round1 b
      ∧ (estimate_wait_time cp dir h wk hol).min_wait_minutes
          = round1 (max 2 (b * 0.7))
      ∧ (estimate_wait_time cp dir h wk hol).max_wait_minutes
          = round1 (b * 1.3) := by
  refine ⟨if hol then waitTimePattern cp (if wk then "weekend" else "weekday") dir h * 1.5
      else waitTimePattern cp (if wk then "weekend" else "weekday") dir h, ?_, rfl, rfl, rfl⟩
  have h3 := waitTimePattern_ge_three cp "weekend" dir h
  have h4 := waitTimePattern_ge_three cp "weekday" dir h
  split_ifs <;> nlinarith

/-- Core wait-time invariant, over arbitrary inputs. -/
lemma estimate_wait_time_inv (cp dir : String) (h : ℤ) (wk hol : Bool) :
    (estimate_wait_time cp dir h wk hol).min_wait_minutes
        ≤ (estimate_wait_time cp dir h wk hol).estimated_wait_minutes
      ∧ (estimate_wait_time cp dir h wk hol).estimated_wait_minutes
        ≤ (estimate_wait_time cp dir h wk hol).max_wait_minutes
      ∧ 2 ≤ (estimate_wait_time cp dir h wk hol).min_wait_minutes := by
  obtain ⟨b, hb, he, hmin, hmax⟩ := estimate_wait_time_base cp dir h wk hol
  rw [he, hmin, hmax]
  have hmaxeq : max 2 (b * 0.7) = b * 0.7 := by
    apply max_eq_right; nlinarith
  rw [hmaxeq]
  obtain ⟨l1, l2⟩ := round1_bounds b
  obtain ⟨m1, m2⟩ := round1_bounds (b * 0.7)
  obtain ⟨u1, u2⟩ := round1_bounds (b * 1.3)
  refine ⟨by nlinarith, by nlinarith, by nlinarith⟩

lemma round1_of_eq_div (x : ℚ) (n : ℤ) (hx : x = (n : ℚ) / 10) :
    round1 x = x := by
  rw [hx, round1_intCast_div_ten]

lemma table_default_of_out_of_range {f : ℤ → ℚ}
    (hf : f = woodlandsWeekdayToJb ∨ f = woodlandsWeekdayToSg
      ∨ f = woodlandsWeekendToJb ∨ f = woodlandsWeekendToSg
      ∨ f = tuasWeekdayToJb ∨ f = tuasWeekdayToSg
      ∨ f = tuasWeekendToJb ∨ f = tuasWeekendToSg)
    (h : ℤ) (hh : h < 0 ∨ 23 < h) : f h = 10 := by
  rcases hf with rfl | rfl | rfl | rfl | rfl | rfl | rfl | rfl <;>
    [unfold woodlandsWeekdayToJb; unfold woodlandsWeekdayToSg;
      unfold woodlandsWeekendToJb; unfold woodlandsWeekendToSg;
      unfold tuasWeekdayToJb; unfold tuasWeekdayToSg;
      unfold tuasWeekendToJb; unfold tuasWeekendToSg] <;>
    split <;> first | rfl | (exfalso; omega)

lemma waitTimePattern_default (cp dir : String) (dt : String) (h : ℤ)
    (hmiss : (cp ≠ "woodlands" ∧ cp ≠ "tuas")
      ∨ (dir ≠ "singapore_to_jb" ∧ dir ≠ "jb_to_singapore")
      ∨ h < 0 ∨ 23 < h) :
    waitTimePattern cp dt dir h = 10 := by
  unfold waitTimePattern
  split
  · exact table_default_of_out_of_range (Or.inl rfl) h (by simpa using hmiss)
  · exact table_default_of_out_of_range (Or.inr (Or.inl rfl)) h
      (by simpa using hmiss)
  · exact table_default_of_out_of_range (Or.inr (Or.inr (Or.inl rfl))) h
      (by simpa using hmiss)
  · exact table_default_of_out_of_range
      (Or.inr (Or.inr (Or.inr (Or.inl rfl)))) h (by simpa using hmiss)
  · exact table_default_of_out_of_range
      (Or.inr (Or.inr (Or.inr (Or.inr (Or.inl rfl))))) h
      (by simpa using hmiss)
  · exact table_default_of_out_of_range
      (Or.inr (Or.inr (Or.inr (Or.inr (Or.inr (Or.inl rfl)))))) h
      (by simpa using hmiss)
  · exact table_default_of_out_of_range
      (Or.inr (Or.inr (Or.inr (Or.inr (Or.inr (Or.inr (Or.inl rfl))))))) h
      (by simpa using hmiss)
  · exact table_default_of_out_of_range
      (Or.inr (Or.inr (Or.inr (Or.inr (Or.inr (Or.inr (Or.inr rfl))))))) h
      (by simpa using hmiss)
  · rfl

lemma get_historical_pos (h d : Nat) : 0 < get_historical_avg_travel_time h d := by
  simp only [get_historical_avg_travel_time]
  split_ifs <;> norm_num

lemma engineer_features_historical (e : Externals) (d : CalDate)
    (h mnt : Nat) (o md : String) :
    (engineer_features e d h mnt o md).historical_avg_time
      = get_historical_avg_travel_time h (pyWeekday d) := rfl

lemma engineer_features_any_holiday_zero (e : Externals) (d : CalDate)
    (h mnt : Nat) (o md : String)
    (h1 : e.sg_public_holiday = false) (h2 : e.my_public_holiday = false)
    (h3 : is_school_holiday_sg d = false)
    (h4 : is_school_holiday_my d = false) :
    (engineer_features e d h mnt o md).is_any_holiday = 0 := by
  simp [engineer_features, h1, h2, h3, h4]

lemma fallback_stage_inv (e : Externals) (d : CalDate) (h mnt : Nat)
    (o md : String) :
    EstimateInv (fallbackStage (engineer_features e d h mnt o md)) := by
  have hb : 0 < (engineer_features e d h mnt o md).historical_avg_time := by
    rw [engineer_features_historical]
    exact get_historical_pos _ _
  simp only [fallbackStage, EstimateInv]
  refine ⟨by nlinarith, by nlinarith, by nlinarith⟩

lemma traffic_stage_inv (use_realtime : Bool) (e : Externals)
    (r : PredictRequest)
    (hm : ∀ m : ℚ, use_realtime = true ∧ r.travel_date = e.today
      ∧ e.traffic_multiplier = some m → 1/2 ≤ m ∧ m ≤ 3/2) :
    EstimateInv (trafficStage use_realtime e r
      (fallbackStage (engineer_features e r.travel_date r.hour r.minute
        r.origin r.mode))) := by
  have hb : 0 < (engineer_features e r.travel_date r.hour r.minute
      r.origin r.mode).historical_avg_time := by
    rw [engineer_features_historical]
    exact get_historical_pos _ _
  unfold trafficStage
  split_ifs with hcond
  · cases htm : e.traffic_multiplier with
    | none => exact fallback_stage_inv e r.travel_date r.hour r.minute r.origin r.mode
    | some m =>
      obtain ⟨hm1, hm2⟩ := hm m ⟨by simpa using hcond.1, hcond.2, htm⟩
      simp only [fallbackStage, EstimateInv]
      refine ⟨by nlinarith, by nlinarith, by nlinarith⟩
  · exact fallback_stage_inv e r.travel_date r.hour r.minute r.origin r.mode

lemma requestWait_inv (r : PredictRequest) (f : Features) :
    (requestWait r f).min_wait_minutes ≤ (requestWait r f).estimated_wait_minutes
      ∧ (requestWait r f).estimated_wait_minutes
        ≤ (requestWait r f).max_wait_minutes
      ∧ 2 ≤ (requestWait r f).min_wait_minutes :=
  estimate_wait_time_inv _ _ _ _ _

lemma wait_stage_inv (r : PredictRequest) (f : Features) (t : Estimate)
    (ht : EstimateInv t) : EstimateInv (waitStage r f t) := by
  obtain ⟨w1, w2, w3⟩ := requestWait_inv r f
  obtain ⟨t1, t2, t3⟩ := ht
  simp only [waitStage, EstimateInv]
  refine ⟨by linarith, by linarith, by linarith⟩

/-- A concrete Monday (Python's `date(2026, 10, 12).weekday() == 0`). -/
def cDate : CalDate := ⟨2026, 10, 12⟩

/-- A concrete Wednesday two days later. -/
def cFutureDate : CalDate := ⟨2026, 10, 14⟩

/-- A concrete valid request: singapore → jb at 08:00 by car through
woodlands, travelling on `cDate`. -/
def cRequest : PredictRequest :=
  { origin := "singapore", destination := "jb", travel_date := cDate
    hour := 8, minute := 0, mode := "car", checkpoint := "woodlands" }

/-- The same request for the future date `cFutureDate`. -/
def cFutureRequest : PredictRequest := { cRequest with travel_date := cFutureDate }

/-- Concrete external responses: today is `cDate`, no public holidays,
no weather API key, and a given live-traffic multiplier. -/
def cExternals (m : Option ℚ) : Externals :=
  { today := cDate, sg_public_holiday := false, my_public_holiday := false
    weather := none, traffic_multiplier := m }

lemma round1_35 : round1 (35 : ℚ) = 35 := by
  rw [round1_of_eq_div 35 350 (by norm_num)]

lemma estimate_wait_woodlands_jb_8 :
    estimate_wait_time "woodlands" "singapore_to_jb" 8 false false =
      { estimated_wait_minutes := 35, min_wait_minutes := 24.5
        max_wait_minutes := 45.5, confidence := "medium" } := by
  have hp : waitTimePattern "woodlands" "weekday" "singapore_to_jb" 8 = 35 := rfl
  simp only [estimate_wait_time, Bool.false_eq_true, if_false, hp]
  have hmn : max (2 : ℚ) (35 * 0.7) = 24.5 := by
    rw [max_eq_right (by norm_num)]; norm_num
  rw [hmn, round1_35, round1_of_eq_div 24.5 245 (by norm_num),
    show (35 : ℚ) * 1.3 = 45.5 by norm_num,
    round1_of_eq_div 45.5 455 (by norm_num)]

lemma cRequest_wait (f : Features) (hhol : f.is_any_holiday = 0) :
    requestWait cRequest f =
      { estimated_wait_minutes := 35, min_wait_minutes := 24.5
        max_wait_minutes := 45.5, confidence := "medium" } := by
  have hwk : pyWeekday cDate = 0 := by decide
  have hrw : requestWait cRequest f
      = estimate_wait_time "woodlands" "singapore_to_jb" 8
          (decide (pyWeekday cDate ≥ 5)) (decide (f.is_any_holiday = 1)) := rfl
  rw [hrw, hwk, hhol]
  exact estimate_wait_woodlands_jb_8

/-- C1 (amended): with no model loaded, the bounds satisfy
lower ≤ predicted ≤ upper and lower ≥ 0 after the fallback-estimate
stage and after the wait-time-addition stage, and after the real-time
traffic-adjustment stage provided the adjustment is skipped or the live
multiplier lies in [0.5, 1.5]; an adjustment with a multiplier outside
that range can push the point estimate outside the (unrescaled)
bounds. -/
theorem bounds_invariant_stages (use_realtime : Bool) (e : Externals)
    (r : PredictRequest) (hval : ValidRequest r)
    (hm : ∀ m : ℚ, use_realtime = true ∧ r.travel_date = e.today
      ∧ e.traffic_multiplier = some m → 1/2 ≤ m ∧ m ≤ 3/2) :
    EstimateInv (fallbackStage (engineer_features e r.travel_date r.hour
        r.minute r.origin r.mode))
      ∧ EstimateInv (trafficStage use_realtime e r
          (fallbackStage (engineer_features e r.travel_date r.hour
            r.minute r.origin r.mode)))
      ∧ EstimateInv (waitStage r
          (engineer_features e r.travel_date r.hour r.minute r.origin r.mode)
          (trafficStage use_realtime e r
            (fallbackStage (engineer_features e r.travel_date r.hour
              r.minute r.origin r.mode)))) :=
  ⟨fallback_stage_inv e r.travel_date r.hour r.minute r.origin r.mode,
    traffic_stage_inv use_realtime e r hm,
    wait_stage_inv r _ _ (traffic_stage_inv use_realtime e r hm)⟩

/-- C1 witness: the concrete request with the adjustment skipped. -/
theorem bounds_invariant_stages_witness :
    EstimateInv (fallbackStage (engineer_features (cExternals none)
        cRequest.travel_date cRequest.hour cRequest.minute cRequest.origin
        cRequest.mode))
      ∧ EstimateInv (trafficStage true (cExternals none) cRequest
          (fallbackStage (engineer_features (cExternals none)
            cRequest.travel_date cRequest.hour cRequest.minute
            cRequest.origin cRequest.mode)))
      ∧ EstimateInv (waitStage cRequest
          (engineer_features (cExternals none) cRequest.travel_date
            cRequest.hour cRequest.minute cRequest.origin cRequest.mode)
          (trafficStage true (cExternals none) cRequest
            (fallbackStage (engineer_features (cExternals none)
              cRequest.travel_date cRequest.hour cRequest.minute
              cRequest.origin cRequest.mode)))) :=
  bounds_invariant_stages true (cExternals none) cRequest (by decide)
    (fun m hm => by simp [cExternals] at hm)

/-- C1 counterexample: the same valid request travelling today with a
live traffic multiplier of 2.0 — the final returned response has
predicted_time_minutes strictly above upper_bound_minutes, because the
adjustment rescaled the point but not the bounds. -/
theorem bounds_invariant_counterexample :
    ValidRequest cRequest
      ∧ (predictNoModel true (cExternals (some 2)) cRequest).upper_bound_minutes
        < (predictNoModel true (cExternals (some 2)) cRequest).predicted_time_minutes := by
  refine ⟨by decide, ?_⟩
  have hhol : (engineer_features (cExternals (some 2)) cRequest.travel_date
      cRequest.hour cRequest.minute cRequest.origin cRequest.mode).is_any_holiday = 0 :=
    engineer_features_any_holiday_zero _ _ _ _ _ _ rfl rfl (by decide) (by decide)
  have hhist : (engineer_features (cExternals (some 2)) cRequest.travel_date
      cRequest.hour cRequest.minute cRequest.origin cRequest.mode).historical_avg_time = 75 := by
    rw [engineer_features_historical]
    have hwk : pyWeekday cRequest.travel_date = 0 := by decide
    rw [show cRequest.hour = 8 from rfl, hwk]
    simp only [get_historical_avg_travel_time]
    norm_num
  have hwait := cRequest_wait _ hhol
  simp only [predictNoModel, waitStage, trafficStage, fallbackStage, hhist, hwait]
  norm_num [cRequest, cExternals, cDate]

lemma requestWait_woodlands_8 (r : PredictRequest) (f : Features)
    (hcp : r.checkpoint = "woodlands") (ho : r.origin = "singapore")
    (hh : r.hour = 8) (hwd : pyWeekday r.travel_date < 5)
    (hhol : f.is_any_holiday = 0) :
    requestWait r f =
      { estimated_wait_minutes := 35, min_wait_minutes := 24.5
        max_wait_minutes := 45.5, confidence := "medium" } := by
  have hwk : decide (pyWeekday r.travel_date ≥ 5) = false :=
    decide_eq_false (by omega)
  unfold requestWait
  rw [hcp, ho, hh, hhol, hwk]
  simpa using estimate_wait_woodlands_jb_8

lemma congestion_110_severe : calculate_congestion_level 110 = .severe := by
  simp only [calculate_congestion_level]
  norm_num

/-- C3: with no model loaded, a request singapore → jb on a future
non-holiday weekday at 08:00 by car through woodlands yields
predicted_time_minutes = 30.0 × 2.5 + 35 = 110.0 and
congestion_level = "severe" (110/30 > 2.0). -/
theorem fallback_scenario_weekday_peak (e : Externals) (r : PredictRequest)
    (horigin : r.origin = "singapore") (hdest : r.destination = "jb")
    (hhour : r.hour = 8) (hmode : r.mode = "car")
    (hcp : r.checkpoint = "woodlands")
    (hweekday : pyWeekday r.travel_date < 5)
    (hfuture : r.travel_date ≠ e.today)
    (hsg : e.sg_public_holiday = false) (hmy : e.my_public_holiday = false)
    (hsch1 : is_school_holiday_sg r.travel_date = false)
    (hsch2 : is_school_holiday_my r.travel_date = false) :
    (predictNoModel true e r).predicted_time_minutes = 110
      ∧ (predictNoModel true e r).congestion_level = .severe := by
  have hhol := engineer_features_any_holiday_zero e r.travel_date r.hour
    r.minute r.origin r.mode hsg hmy hsch1 hsch2
  have hhist : (engineer_features e r.travel_date r.hour r.minute r.origin
      r.mode).historical_avg_time = 75 := by
    rw [engineer_features_historical, hhour]
    have h56 : ¬(pyWeekday r.travel_date = 5 ∨ pyWeekday r.travel_date = 6) := by
      omega
    simp only [get_historical_avg_travel_time]
    rw [if_neg h56]
    norm_num
  have hwait := requestWait_woodlands_8 r _ hcp horigin hhour hweekday hhol
  have htr : ∀ t : Estimate, trafficStage true e r t = t := by
    intro t
    unfold trafficStage
    rw [if_neg]
    rintro ⟨-, h⟩
    exact hfuture h
  have hpt : (predictNoModel true e r).predicted_time_minutes = 110 := by
    simp only [predictNoModel, htr, waitStage, fallbackStage, hhist, hwait]
    norm_num
  refine ⟨hpt, ?_⟩
  have hcl : (predictNoModel true e r).congestion_level
      = calculate_congestion_level (predictNoModel true e r).predicted_time_minutes := rfl
  rw [hcl, hpt]
  exact congestion_110_severe

/-- C3 witness: travelling on Wednesday 2026-10-14 (today being
2026-10-12), which is neither a public nor a school holiday. -/
theorem fallback_scenario_weekday_peak_witness :
    (predictNoModel true (cExternals none) cFutureRequest).predicted_time_minutes = 110
      ∧ (predictNoModel true (cExternals none) cFutureRequest).congestion_level = .severe :=
  fallback_scenario_weekday_peak (cExternals none) cFutureRequest rfl rfl rfl
    rfl rfl (by decide) (by decide) rfl rfl (by decide) (by decide)

/-- C6: when the real-time adjustment runs (travel date is today and a
live multiplier m was obtained), the point estimate p is replaced by
p × (0.7 + 0.3 × m) and nothing else changes; with m = 1 the stage is
the identity. -/
theorem traffic_adjustment_blend (e : Externals) (r : PredictRequest)
    (t : Estimate) (m : ℚ) (htoday : r.travel_date = e.today)
    (hmul : e.traffic_multiplier = some m) :
    trafficStage true e r t = { t with point := t.point * (0.7 + 0.3 * m) }
      ∧ (m = 1 → trafficStage true e r t = t) := by
  have h1 : trafficStage true e r t
      = { t with point := t.point * (0.7 + 0.3 * m) } := by
    unfold trafficStage
    rw [if_pos ⟨rfl, htoday⟩, hmul]
  refine ⟨h1, ?_⟩
  rintro rfl
  rw [h1]
  cases t
  simp only [Estimate.mk.injEq, and_true, true_and]
  norm_num

/-- C6 witness: multiplier 1 leaves the concrete estimate unchanged. -/
theorem traffic_adjustment_blend_witness :
    trafficStage true (cExternals (some 1)) cRequest ⟨75, 63.75, 86.25⟩
        = { point := (75 : ℚ) * (0.7 + 0.3 * 1), lower := 63.75, upper := 86.25 }
      ∧ ((1 : ℚ) = 1 → trafficStage true (cExternals (some 1)) cRequest
          ⟨75, 63.75, 86.25⟩ = ⟨75, 63.75, 86.25⟩) :=
  traffic_adjustment_blend (cExternals (some 1)) cRequest ⟨75, 63.75, 86.25⟩ 1
    rfl rfl

/-- C8: the real-time traffic adjustment modifies only the point
estimate: the bounds after the adjustment stage equal the bounds before
it, and the final returned bounds equal those of the same request run
with no live multiplier available. -/
theorem traffic_adjustment_frame (e : Externals) (r : PredictRequest)
    (m : ℚ) (htoday : r.travel_date = e.today)
    (hmul : e.traffic_multiplier = some m) :
    (∀ t : Estimate, (trafficStage true e r t).lower = t.lower
        ∧ (trafficStage true e r t).upper = t.upper)
      ∧ (predictNoModel true e r).lower_bound_minutes
          = (predictNoModel true
              { e with traffic_multiplier := none } r).lower_bound_minutes
      ∧ (predictNoModel true e r).upper_bound_minutes
          = (predictNoModel true
              { e with traffic_multiplier := none } r).upper_bound_minutes := by
  have hstage : ∀ t : Estimate, (trafficStage true e r t).lower = t.lower
      ∧ (trafficStage true e r t).upper = t.upper := by
    intro t
    unfold trafficStage
    split_ifs
    · rw [hmul]; exact ⟨rfl, rfl⟩
    · exact ⟨rfl, rfl⟩
  have hnone : ∀ t : Estimate,
      trafficStage true { e with traffic_multiplier := none } r t = t := by
    intro t
    unfold trafficStage
    split_ifs <;> rfl
  have hfeat : engineer_features { e with traffic_multiplier := none }
      r.travel_date r.hour r.minute r.origin r.mode
      = engineer_features e r.travel_date r.hour r.minute r.origin r.mode := by
    cases e; rfl
  refine ⟨hstage, ?_, ?_⟩ <;>
    · simp only [predictNoModel, waitStage, hfeat, hnone]
      obtain ⟨h1, h2⟩ := hstage (fallbackStage (engineer_features e
        r.travel_date r.hour r.minute r.origin r.mode))
      simp only [h1, h2]

/-- C8 witness: concrete request today with multiplier 2. -/
theorem traffic_adjustment_frame_witness :
    (∀ t : Estimate,
        (trafficStage true (cExternals (some 2)) cRequest t).lower = t.lower
        ∧ (trafficStage true (cExternals (some 2)) cRequest t).upper = t.upper)
      ∧ (predictNoModel true (cExternals (some 2)) cRequest).lower_bound_minutes
          = (predictNoModel true
              { cExternals (some 2) with traffic_multiplier := none }
              cRequest).lower_bound_minutes
      ∧ (predictNoModel true (cExternals (some 2)) cRequest).upper_bound_minutes
          = (predictNoModel true
              { cExternals (some 2) with traffic_multiplier := none }
              cRequest).upper_bound_minutes :=
  traffic_adjustment_frame (cExternals (some 2)) cRequest 2 rfl rfl

/-- C9: with no model loaded the pipeline is deterministic — for fixed
external-collaborator responses (same today-date, holiday answers,
weather and traffic responses), two identical requests produce
identical PredictionResults: the result is a pure function of the
request plus the static baseline and wait-time tables. -/
theorem fallback_deterministic (use_realtime : Bool) (e : Externals)
    (r1 r2 : PredictRequest) (h : r1 = r2) :
    predictNoModel use_realtime e r1 = predictNoModel use_realtime e r2 := by
  rw [h]

/-- C9 witness. -/
theorem fallback_deterministic_witness :
    predictNoModel true (cExternals none) cRequest
      = predictNoModel true (cExternals none) cRequest :=
  fallback_deterministic true (cExternals none) cRequest cRequest rfl

/-- C4: classification by ratio = predicted/base: ratio < 1.2 → "low",
1.2 ≤ ratio < 1.5 → "moderate", 1.5 ≤ ratio < 2.0 → "high",
ratio ≥ 2.0 → "severe"; every boundary is a strict "<" on the low side,
so ratio exactly 1.2 is "moderate", exactly 1.5 is "high" and exactly
2.0 is "severe". -/
theorem congestion_level_thresholds (p b : ℚ) :
    (calculate_congestion_level p b = .low ↔ p / b < 1.2)
      ∧ (calculate_congestion_level p b = .moderate
          ↔ 1.2 ≤ p / b ∧ p / b < 1.5)
      ∧ (calculate_congestion_level p b = .high
          ↔ 1.5 ≤ p / b ∧ p / b < 2.0)
      ∧ (calculate_congestion_level p b = .severe ↔ 2.0 ≤ p / b) := by
  simp only [calculate_congestion_level]
  split_ifs with h1 h2 h3 <;>
    refine ⟨?_, ?_, ?_, ?_⟩ <;> simp_all <;> intros <;> linarith

/-- C5: classification is monotonic in the predicted minutes: for every
positive base and p1 ≤ p2, the congestion tier of p1 is at most the
tier of p2 in the order low < moderate < high < severe. -/
theorem congestion_level_monotone (b p1 p2 : ℚ) (hb : 0 < b)
    (h12 : p1 ≤ p2) :
    levelRank (calculate_congestion_level p1 b)
      ≤ levelRank (calculate_congestion_level p2 b) := by
  have hr : p1 / b ≤ p2 / b := by gcongr
  simp only [calculate_congestion_level]
  split_ifs <;> simp [levelRank] <;> linarith

/-- C5 witness. -/
theorem congestion_level_monotone_witness :
    levelRank (calculate_congestion_level 40 30)
      ≤ levelRank (calculate_congestion_level 70 30) :=
  congestion_level_monotone 30 40 70 (by norm_num) (by norm_num)

/-- C7: for every valid (checkpoint, direction, hour 0-23, weekend,
holiday) combination, the wait-time estimate satisfies
min ≤ estimated ≤ max and min ≥ 2 (after rounding to one decimal). -/
theorem wait_time_estimate_invariant (cp dir : String) (h : ℤ)
    (wk hol : Bool) (hcp : cp = "woodlands" ∨ cp = "tuas")
    (hdir : dir = "singapore_to_jb" ∨ dir = "jb_to_singapore")
    (hh : 0 ≤ h ∧ h ≤ 23) :
    (estimate_wait_time cp dir h wk hol).min_wait_minutes
        ≤ (estimate_wait_time cp dir h wk hol).estimated_wait_minutes
      ∧ (estimate_wait_time cp dir h wk hol).estimated_wait_minutes
        ≤ (estimate_wait_time cp dir h wk hol).max_wait_minutes
      ∧ 2 ≤ (estimate_wait_time cp dir h wk hol).min_wait_minutes :=
  estimate_wait_time_inv cp dir h wk hol

/-- C7 witness: woodlands, singapore_to_jb, hour 8, weekday,
no holiday. -/
theorem wait_time_estimate_invariant_witness :
    (estimate_wait_time "woodlands" "singapore_to_jb" 8 false false).min_wait_minutes
        ≤ (estimate_wait_time "woodlands" "singapore_to_jb" 8 false false).estimated_wait_minutes
      ∧ (estimate_wait_time "woodlands" "singapore_to_jb" 8 false false).estimated_wait_minutes
        ≤ (estimate_wait_time "woodlands" "singapore_to_jb" 8 false false).max_wait_minutes
      ∧ 2 ≤ (estimate_wait_time "woodlands" "singapore_to_jb" 8 false false).min_wait_minutes :=
  wait_time_estimate_invariant "woodlands" "singapore_to_jb" 8 false false
    (Or.inl rfl) (Or.inl rfl) (by norm_num)

/-- C10: `estimate_wait_time` is total over arbitrary checkpoint and
direction strings and any integer hour, and whenever the checkpoint,
direction or hour key is absent from the table it returns the estimate
built from the default base of 10 minutes (15/10.5/19.5 on a holiday,
10/7/13 otherwise), rather than an error. -/
theorem wait_time_default_on_missing_key (cp dir : String) (h : ℤ)
    (wk hol : Bool)
    (hmiss : (cp ≠ "woodlands" ∧ cp ≠ "tuas")
      ∨ (dir ≠ "singapore_to_jb" ∧ dir ≠ "jb_to_singapore")
      ∨ h < 0 ∨ 23 < h) :
    estimate_wait_time cp dir h wk hol =
      if hol then
        { estimated_wait_minutes := 15, min_wait_minutes := 10.5
          max_wait_minutes := 19.5, confidence := "medium" }
      else
        { estimated_wait_minutes := 10, min_wait_minutes := 7
          max_wait_minutes := 13, confidence := "medium" } := by
  have hpat := waitTimePattern_default cp dir
    (if wk then "weekend" else "weekday") h hmiss
  simp only [estimate_wait_time]
  rw [hpat]
  rcases hol with _ | _
  · simp only [Bool.false_eq_true, if_false]
    have he : round1 (10 : ℚ) = 10 := by
      rw [round1_of_eq_div 10 100 (by norm_num)]
    have hmn : max (2 : ℚ) (10 * 0.7) = 7 := by
      rw [max_eq_right (by norm_num)]; norm_num
    have hm : round1 (max (2 : ℚ) (10 * 0.7)) = 7 := by
      rw [hmn, round1_of_eq_div 7 70 (by norm_num)]
    have hx : round1 ((10 : ℚ) * 1.3) = 13 := by
      rw [show ((10 : ℚ) * 1.3) = 13 by norm_num,
        round1_of_eq_div 13 130 (by norm_num)]
    rw [he, hm, hx]
  · simp only [if_true]
    have he : round1 ((10 : ℚ) * 1.5) = 15 := by
      rw [show ((10 : ℚ) * 1.5) = 15 by norm_num,
        round1_of_eq_div 15 150 (by norm_num)]
    have hmn : max (2 : ℚ) (10 * 1.5 * 0.7) = 10.5 := by
      rw [max_eq_right (by norm_num)]; norm_num
    have hm : round1 (max (2 : ℚ) (10 * 1.5 * 0.7)) = 10.5 := by
      rw [hmn, round1_of_eq_div 10.5 105 (by norm_num)]
    have hx : round1 ((10 : ℚ) * 1.5 * 1.3) = 19.5 := by
      rw [show ((10 : ℚ) * 1.5 * 1.3) = 19.5 by norm_num,
        round1_of_eq_div 19.5 195 (by norm_num)]
    rw [he, hm, hx]

/-- C10 witness: unknown checkpoint string, non-holiday. -/
theorem wait_time_default_on_missing_key_witness :
    estimate_wait_time "qwe" "singapore_to_jb" 8 false false =
      { estimated_wait_minutes := 10, min_wait_minutes := 7
        max_wait_minutes := 13, confidence := "medium" } := by
  have := wait_time_default_on_missing_key "qwe" "singapore_to_jb" 8
    false false (Or.inl (by simp))
  simpa using this

lemma popVariance_scenario : popVariance [28, 30, 32, 30, 30] = 8/5 := by
  have hm : listMean [28, 30, 32, 30, 30] = 30 := by
    simp [listMean]
    norm_num
  simp [popVariance, hm]
  norm_num

lemma npStd_scenario : npStd [28, 30, 32, 30, 30] = Real.sqrt (8/5) := by
  rw [npStd, popVariance_scenario]
  norm_num

/-- C2 counterexample: `np.std` (as called in model.py line 113, with
its default ddof = 0) is the population standard deviation, not the
sample standard deviation: for the member predictions
[28, 30, 32, 30, 30] the code's σ satisfies σ² = 8/5 = 1.6 and
σ < 1.3, so σ ≈ 1.26, not ≈ 1.41 (the sample standard deviation √2
would exceed 1.4). -/
theorem ensemble_std_counterexample :
    npStd [28, 30, 32, 30, 30] ^ 2 = 8/5
      ∧ npStd [28, 30, 32, 30, 30] < 1.3 := by
  rw [npStd_scenario]
  constructor
  · rw [Real.sq_sqrt (by norm_num)]
  · rw [Real.sqrt_lt' (by norm_num)]
    norm_num

/-- C2 (amended): when the model exposes an ensemble, the predictor
samples up to the first 50 members, keeps those with a `predict`
attribute, takes the population standard deviation σ (`np.std`,
ddof = 0) of their predictions, and returns
lower = max(0, point − 1.96σ), upper = point + 1.96σ; with no ensemble
or zero usable predictions the band is ±15% of the point. For a
nonnegative point value the band always brackets it:
lower ≤ point ≤ upper and lower ≥ 0. -/
theorem model_uncertainty_band (p : ℚ) (ests : List (Option ℚ)) :
    (treePredictions ests ≠ [] →
        modelPredict p (some ests)
          = ((p : ℝ),
              max 0 ((p : ℝ) - 1.96 * npStd (treePredictions ests)),
              (p : ℝ) + 1.96 * npStd (treePredictions ests)))
      ∧ (treePredictions ests = [] →
          modelPredict p (some ests)
            = ((p : ℝ), (p : ℝ) * 0.85, (p : ℝ) * 1.15))
      ∧ modelPredict p none = ((p : ℝ), (p : ℝ) * 0.85, (p : ℝ) * 1.15)
      ∧ (0 ≤ p →
          (modelPredict p (some ests)).2.1 ≤ (p : ℝ)
            ∧ (p : ℝ) ≤ (modelPredict p (some ests)).2.2
            ∧ 0 ≤ (modelPredict p (some ests)).2.1) := by
  have hsome_ne : ∀ _ : treePredictions ests ≠ [],
      modelPredict p (some ests)
        = ((p : ℝ),
            max 0 ((p : ℝ) - 1.96 * npStd (treePredictions ests)),
            (p : ℝ) + 1.96 * npStd (treePredictions ests)) := fun h => by
    simp [modelPredict, h]
  have hsome_e : ∀ _ : treePredictions ests = [],
      modelPredict p (some ests)
        = ((p : ℝ), (p : ℝ) * 0.85, (p : ℝ) * 1.15) := fun h => by
    simp [modelPredict, h]
  refine ⟨hsome_ne, hsome_e, rfl, ?_⟩
  intro hp
  have hp' : (0 : ℝ) ≤ (p : ℝ) := by exact_mod_cast hp
  by_cases h : treePredictions ests = []
  · rw [hsome_e h]
    refine ⟨?_, ?_, ?_⟩ <;> dsimp only <;> nlinarith
  · rw [hsome_ne h]
    have hs : 0 ≤ npStd (treePredictions ests) := Real.sqrt_nonneg _
    dsimp only
    exact ⟨max_le hp' (by nlinarith), by nlinarith, le_max_left 0 _⟩

/-- C2 witness: the scenario ensemble [28, 30, 32, 30, 30] with point
value 30: the band takes the σ form and brackets 30. -/
theorem model_uncertainty_band_witness :
    modelPredict 30 (some [some 28, some 30, some 32, some 30, some 30])
        = ((30 : ℝ),
            max 0 ((30 : ℝ) - 1.96 * npStd (treePredictions
              [some 28, some 30, some 32, some 30, some 30])),
            (30 : ℝ) + 1.96 * npStd (treePredictions
              [some 28, some 30, some 32, some 30, some 30]))
      ∧ (modelPredict 30
            (some [some 28, some 30, some 32, some 30, some 30])).2.1 ≤ (30 : ℝ)
      ∧ (30 : ℝ) ≤ (modelPredict 30
            (some [some 28, some 30, some 32, some 30, some 30])).2.2 := by
  have h := model_uncertainty_band 30 [some 28, some 30, some 32, some 30, some 30]
  have hne : treePredictions [some 28, some 30, some 32, some 30, some 30] ≠ [] := by
    simp [treePredictions]
  exact ⟨h.1 hne, (h.2.2.2 (by norm_num)).1, (h.2.2.2 (by norm_num)).2.1⟩

end SgJb
